import Mathlib

/-!
Verification development for the p2p-messenger core (Angular/TypeScript).

The repository's services are shallowly embedded:
* EncryptionService (src/app/core/services/encryption.service.ts) —
  the private base64 codec and the hybrid AES-GCM + RSA-OAEP envelope,
  with the Web Crypto primitives modelled as an abstract structure of
  cipher functions satisfying the inversion laws those primitives
  guarantee.
* P2PService (src/app/core/services/p2p.service.ts) — connection
  registry, signaling buffers, data-channel event handlers, import and
  export of signaling batches, modelled as explicit state passing.
* MessageService (message.service.ts) — the send/receive message
  pipeline over the two services above.

Bytes are `Fin 256`, matching Uint8Array cells.  Textual (base64)
outputs of the codec are `List Char`.  Fallible operations return
`Option`/`Except`; thrown-and-caught TypeScript exceptions are modelled
by result pairs carrying an optional error.
-/

set_option maxRecDepth 4000

/-- A byte, as stored in a Uint8Array cell. -/
abbrev Byte := Fin 256

/-- The base64 alphabet used by btoa/atob (RFC 4648, no URL-safe variant). -/
def b64Alphabet : List Char :=
  "ABCDEFGHIJKLMNOPQRSTUVWXYZabcdefghijklmnopqrstuvwxyz0123456789+/".data

/-- The base64 digit character for a 6-bit value. -/
def b64Char (n : Nat) : Char := b64Alphabet.getD n (Char.ofNat 65)

/-- The 6-bit value of a base64 digit character, `none` for characters
outside the alphabet (atob throws on those). -/
def b64Index (c : Char) : Option (Fin 64) :=
  (b64Alphabet.findIdx? (fun d => d == c)).bind
    (fun n => if h : n < 64 then some ⟨n, h⟩ else none)

/-- Model of `arrayBufferToBase64` (encryption.service.ts lines 128-135):
the byte array is turned into a binary string and passed to `btoa`,
i.e. standard base64 encoding of the byte sequence, 3 bytes to 4 digits
with `=` padding.  The composition is modelled directly at byte level. -/
def encodeB64 : List Byte → List Char
  | [] => []
  | [a] =>
      [b64Char (a.val / 4), b64Char (a.val % 4 * 16), '=', '=']
  | [a, b] =>
      [b64Char (a.val / 4), b64Char (a.val % 4 * 16 + b.val / 16),
        b64Char (b.val % 16 * 4), '=']
  | a :: b :: c :: rest =>
      b64Char (a.val / 4) :: b64Char (a.val % 4 * 16 + b.val / 16) ::
        b64Char (b.val % 16 * 4 + c.val / 64) :: b64Char (c.val % 64) ::
        encodeB64 rest

/-- Model of `base64ToArrayBuffer` (encryption.service.ts lines 140-147):
`atob` followed by reading each character code into a byte.  `none`
models the InvalidCharacterError `atob` throws on malformed input. -/
def decodeB64 : List Char → Option (List Byte)
  | [] => some []
  | c0 :: c1 :: c2 :: c3 :: rest =>
      match b64Index c0, b64Index c1 with
      | some s0, some s1 =>
        if c2 = '=' then
          if c3 = '=' ∧ rest = [] then
            some [⟨s0.val * 4 + s1.val / 16, by
              have h0 := s0.isLt; have h1 := s1.isLt; omega⟩]
          else none
        else
          match b64Index c2 with
          | some s2 =>
            if c3 = '=' then
              if rest = [] then
                some [⟨s0.val * 4 + s1.val / 16, by
                    have h0 := s0.isLt; have h1 := s1.isLt; omega⟩,
                  ⟨s1.val % 16 * 16 + s2.val / 4, by
                    have h1 := s1.isLt; have h2 := s2.isLt; omega⟩]
              else none
            else
              match b64Index c3, decodeB64 rest with
              | some s3, some tail =>
                some (⟨s0.val * 4 + s1.val / 16, by
                    have h0 := s0.isLt; have h1 := s1.isLt; omega⟩ ::
                  ⟨s1.val % 16 * 16 + s2.val / 4, by
                    have h1 := s1.isLt; have h2 := s2.isLt; omega⟩ ::
                  ⟨s2.val % 4 * 64 + s3.val, by
                    have h2 := s2.isLt; have h3 := s3.isLt; omega⟩ :: tail)
              | _, _ => none
          | none => none
      | _, _ => none
  | _ => none

/-- Source name for the encoder, as in encryption.service.ts. -/
def arrayBufferToBase64 (buffer : List Byte) : List Char := encodeB64 buffer

/-- Source name for the decoder, as in encryption.service.ts. -/
def base64ToArrayBuffer (base64 : List Char) : Option (List Byte) :=
  decodeB64 base64

lemma b64Index_b64Char_fin : ∀ n : Fin 64, b64Index (b64Char n.val) = some n := by
  decide

lemma b64Char_ne_pad_fin : ∀ n : Fin 64, b64Char n.val ≠ '=' := by
  decide

lemma b64Index_b64Char (n : Nat) (h : n < 64) :
    b64Index (b64Char n) = some ⟨n, h⟩ :=
  b64Index_b64Char_fin ⟨n, h⟩

lemma b64Char_ne_pad (n : Nat) (h : n < 64) : b64Char n ≠ '=' :=
  b64Char_ne_pad_fin ⟨n, h⟩

theorem decodeB64_encodeB64 : ∀ b : List Byte, decodeB64 (encodeB64 b) = some b
  | [] => rfl
  | [a] => by
      have ha := a.isLt
      simp only [encodeB64, decodeB64,
        b64Index_b64Char (a.val / 4) (by omega),
        b64Index_b64Char (a.val % 4 * 16) (by omega)]
      simp only [and_self, if_true,
        Option.some.injEq, List.cons.injEq, and_true, Fin.ext_iff]
      omega
  | [a, b] => by
      have ha := a.isLt
      have hb := b.isLt
      simp only [encodeB64, decodeB64,
        b64Index_b64Char (a.val / 4) (by omega),
        b64Index_b64Char (a.val % 4 * 16 + b.val / 16) (by omega),
        b64Index_b64Char (b.val % 16 * 4) (by omega),
        if_neg (b64Char_ne_pad (b.val % 16 * 4) (by omega))]
      simp only [and_self, if_true,
        Option.some.injEq, List.cons.injEq, and_true, Fin.ext_iff]
      omega
  | a :: b :: c :: rest => by
      have ha := a.isLt
      have hb := b.isLt
      have hc := c.isLt
      have ih := decodeB64_encodeB64 rest
      simp only [encodeB64, decodeB64,
        b64Index_b64Char (a.val / 4) (by omega),
        b64Index_b64Char (a.val % 4 * 16 + b.val / 16) (by omega),
        b64Index_b64Char (b.val % 16 * 4 + c.val / 64) (by omega),
        b64Index_b64Char (c.val % 64) (by omega),
        if_neg (b64Char_ne_pad (b.val % 16 * 4 + c.val / 64) (by omega)),
        if_neg (b64Char_ne_pad (c.val % 64) (by omega)), ih]
      simp only [and_self, if_true,
        Option.some.injEq, List.cons.injEq, and_true, Fin.ext_iff]
      omega

/-- Byte-level claim theorem for the private base64 codec (C9):
the round trip is byte-exact for every byte buffer. -/
theorem base64_codec_roundtrip (b : List Byte) :
    base64ToArrayBuffer (arrayBufferToBase64 b) = some b :=
  decodeB64_encodeB64 b

/-- Abstract model of the Web Crypto primitives used by
EncryptionService.  `aesEncrypt`/`aesDecrypt` model
crypto.subtle.encrypt/decrypt with AES-GCM (key and IV passed as the
raw bytes; decryption fails on authentication-tag mismatch, hence the
Option).  `rsaEncrypt`/`rsaDecrypt` model RSA-OAEP encrypt/decrypt with
an imported key pair.  `utf8Encode`/`utf8Decode` model
TextEncoder.encode / TextDecoder.decode.  `importPublicKey` and
`importPrivateKey` model EncryptionService.importPublicKey /
importPrivateKey (base64 decode plus a real key import, which fails on
cryptographically invalid bytes).  The two laws are the guarantees the
platform provides: an authenticated cipher decrypts its own output, and
TextDecoder inverts TextEncoder. -/
structure HybridCrypto where
  aesEncrypt : List Byte → List Byte → List Byte → List Byte
  aesDecrypt : List Byte → List Byte → List Byte → Option (List Byte)
  rsaEncrypt : List Byte → List Byte → List Byte
  rsaDecrypt : List Byte → List Byte → Option (List Byte)
  utf8Encode : String → List Byte
  utf8Decode : List Byte → String
  importPublicKey : List Char → Option (List Byte)
  importPrivateKey : List Char → Option (List Byte)
  aes_roundtrip : ∀ k nonce m, aesDecrypt k nonce (aesEncrypt k nonce m) = some m
  utf8_roundtrip : ∀ s, utf8Decode (utf8Encode s) = s

/-- A key pair is valid when RSA-OAEP decryption with the private key
inverts encryption with the public key, for plaintexts within the
RSA-OAEP/2048/SHA-256 size ceiling (190 bytes; the service only wraps
32-byte AES keys). -/
def validKeyPair (C : HybridCrypto) (pub priv : List Byte) : Prop :=
  ∀ m : List Byte, m.length ≤ 190 → C.rsaDecrypt priv (C.rsaEncrypt pub m) = some m

/-- EncryptedContent (interfaces): the three base64-encoded fields
returned by encryptMessageHybrid. -/
structure EncryptedContent where
  encryptedData : List Char
  encryptedKey : List Char
  iv : List Char
  deriving DecidableEq, Repr

/-- Model of `encryptMessageHybrid` (encryption.service.ts lines
157-200).  The randomly generated AES key and IV are passed explicitly
(`aesKey` is the raw export of the generated key, as `exportKey('raw')`
is the identity on the key bytes). -/
def encryptMessageHybrid (C : HybridCrypto) (aesKey ivBytes : List Byte)
    (message : String) (publicKey : List Byte) : EncryptedContent :=
  let messageData := C.utf8Encode message
  let encryptedData := C.aesEncrypt aesKey ivBytes messageData
  let exportedAesKey := aesKey
  let encryptedKey := C.rsaEncrypt publicKey exportedAesKey
  { encryptedData := arrayBufferToBase64 encryptedData
    encryptedKey := arrayBufferToBase64 encryptedKey
    iv := arrayBufferToBase64 ivBytes }

/-- Model of `decryptMessageHybrid` (encryption.service.ts lines
211-250): unwrap the AES key with RSA-OAEP, import it, decode the IV
and ciphertext from base64, AES-GCM-decrypt, and decode the plaintext.
`none` models any thrown failure (bad base64, RSA failure, GCM
authentication failure). -/
def decryptMessageHybrid (C : HybridCrypto)
    (encryptedData encryptedKey iv : List Char)
    (privateKey : List Byte) : Option String := do
  let encryptedKeyBuffer ← base64ToArrayBuffer encryptedKey
  let decryptedKeyBuffer ← C.rsaDecrypt privateKey encryptedKeyBuffer
  let aesKey := decryptedKeyBuffer
  let ivBuffer ← base64ToArrayBuffer iv
  let encryptedDataBuffer ← base64ToArrayBuffer encryptedData
  let decryptedData ← C.aesDecrypt aesKey ivBuffer encryptedDataBuffer
  pure (C.utf8Decode decryptedData)

/-- Model of `encryptAttachmentHybrid` (encryption.service.ts lines
259-306).  The input is the attachment bytes after base64/data-URL
stripping; structure mirrors encryptMessageHybrid without the text
encoding step. -/
def encryptAttachmentHybrid (C : HybridCrypto) (aesKey ivBytes : List Byte)
    (dataBuffer : List Byte) (publicKey : List Byte) : EncryptedContent :=
  let encryptedData := C.aesEncrypt aesKey ivBytes dataBuffer
  let encryptedKey := C.rsaEncrypt publicKey aesKey
  { encryptedData := arrayBufferToBase64 encryptedData
    encryptedKey := arrayBufferToBase64 encryptedKey
    iv := arrayBufferToBase64 ivBytes }

/-- Model of `decryptAttachmentHybrid` (encryption.service.ts lines
317-356): as decryptMessageHybrid but the decrypted bytes are
re-encoded to base64 instead of text-decoded. -/
def decryptAttachmentHybrid (C : HybridCrypto)
    (encryptedData encryptedKey iv : List Char)
    (privateKey : List Byte) : Option (List Char) := do
  let encryptedKeyBuffer ← base64ToArrayBuffer encryptedKey
  let decryptedKeyBuffer ← C.rsaDecrypt privateKey encryptedKeyBuffer
  let ivBuffer ← base64ToArrayBuffer iv
  let encryptedDataBuffer ← base64ToArrayBuffer encryptedData
  let decryptedData ← C.aesDecrypt decryptedKeyBuffer ivBuffer encryptedDataBuffer
  pure (arrayBufferToBase64 decryptedData)

/-- C1: hybrid decryption inverts hybrid encryption for every plaintext
string and valid RSA key pair (the AES key generated by the service is
256-bit, i.e. 32 raw bytes, within the RSA-OAEP ceiling). -/
theorem hybrid_encrypt_decrypt_roundtrip (C : HybridCrypto)
    (pub priv aesKey ivBytes : List Byte)
    (hpair : validKeyPair C pub priv) (hkey : aesKey.length = 32)
    (p : String) :
    decryptMessageHybrid C
      (encryptMessageHybrid C aesKey ivBytes p pub).encryptedData
      (encryptMessageHybrid C aesKey ivBytes p pub).encryptedKey
      (encryptMessageHybrid C aesKey ivBytes p pub).iv
      priv = some p := by
  simp only [encryptMessageHybrid, decryptMessageHybrid,
    decodeB64_encodeB64, arrayBufferToBase64, base64ToArrayBuffer,
    hpair aesKey (by omega), C.aes_roundtrip, C.utf8_roundtrip,
    Option.bind_some, Option.some_bind, Option.bind_eq_bind, pure]

lemma char_toNat_lt (c : Char) : c.toNat < 1114112 := by
  have h := c.valid
  rcases h with h | h
  · exact Nat.lt_trans h (by decide)
  · exact h.2

/-- Three-byte big-endian encoding of one Unicode code point, used by
the concrete witness instance of the text codec. -/
def charToBytes (c : Char) : List Byte :=
  [⟨c.toNat / 65536 % 256, Nat.mod_lt _ (by omega)⟩,
    ⟨c.toNat / 256 % 256, Nat.mod_lt _ (by omega)⟩,
    ⟨c.toNat % 256, Nat.mod_lt _ (by omega)⟩]

/-- Inverse of charToBytes over whole byte lists. -/
def bytesToChars : List Byte → List Char
  | b0 :: b1 :: b2 :: rest =>
      Char.ofNat (b0.val * 65536 + b1.val * 256 + b2.val) :: bytesToChars rest
  | _ => []

/-- Witness text encoder: concatenated charToBytes. -/
def refUtf8Encode (s : String) : List Byte :=
  s.data.foldr (fun c acc => charToBytes c ++ acc) []

/-- Witness text decoder. -/
def refUtf8Decode (l : List Byte) : String := String.mk (bytesToChars l)

lemma bytesToChars_charToBytes (c : Char) (rest : List Byte) :
    bytesToChars (charToBytes c ++ rest) = c :: bytesToChars rest := by
  have hv := char_toNat_lt c
  simp only [charToBytes, List.cons_append, List.nil_append, bytesToChars,
    List.cons.injEq, List.append_nil]
  have hval : c.toNat / 65536 % 256 * 65536 + c.toNat / 256 % 256 * 256 +
      c.toNat % 256 = c.toNat := by omega
  rw [hval]
  exact ⟨Char.ofNat_toNat c, rfl⟩

lemma refUtf8_roundtrip (s : String) : refUtf8Decode (refUtf8Encode s) = s := by
  rcases s with ⟨data⟩
  simp only [refUtf8Encode, refUtf8Decode]
  induction data with
  | nil => rfl
  | cons c cs ih =>
      simp only [List.foldr_cons, bytesToChars_charToBytes]
      have h2 : bytesToChars (List.foldr (fun c acc => charToBytes c ++ acc) [] cs) = cs :=
        congrArg String.data ih
      rw [h2]

/-- Concrete HybridCrypto instance used only by witnesses: reversal as
the symmetric cipher, identity as the asymmetric wrap, and the
three-byte text codec. -/
def refCrypto : HybridCrypto where
  aesEncrypt := fun _ _ m => m.reverse
  aesDecrypt := fun _ _ m => some m.reverse
  rsaEncrypt := fun _ m => m
  rsaDecrypt := fun _ m => some m
  utf8Encode := refUtf8Encode
  utf8Decode := refUtf8Decode
  importPublicKey := decodeB64
  importPrivateKey := decodeB64
  aes_roundtrip := fun k nonce m => by simp
  utf8_roundtrip := refUtf8_roundtrip

/-- A fixed 32-byte witness AES key. -/
def refAesKey : List Byte := List.replicate 32 (7 : Byte)

/-- A fixed 12-byte witness IV. -/
def refIv : List Byte := List.replicate 12 (3 : Byte)

/-- Witness for C1: the round trip evaluated at the reference crypto
instance, a concrete key pair and the plaintext "hi". -/
theorem hybrid_encrypt_decrypt_roundtrip_witness :
    decryptMessageHybrid refCrypto
      (encryptMessageHybrid refCrypto refAesKey refIv "hi" []).encryptedData
      (encryptMessageHybrid refCrypto refAesKey refIv "hi" []).encryptedKey
      (encryptMessageHybrid refCrypto refAesKey refIv "hi" []).iv
      [] = some "hi" :=
  hybrid_encrypt_decrypt_roundtrip refCrypto [] [] refAesKey refIv
    (fun m _ => rfl) (by simp [refAesKey]) "hi"

/-- Connection state union as it occurs at runtime.  The TypeScript
interface declares only connecting/connected/disconnected/failed, but
`pc.connectionState as P2PConnection['connectionState']` (p2p.service.ts
line 96) is an unchecked cast, so the RTCPeerConnectionState values
`new` and `closed` can also flow into the state maps. -/
inductive PeerConnectionState
  | new
  | connecting
  | connected
  | disconnected
  | failed
  | closed
  deriving DecidableEq, Repr

/-- RTCIceConnectionState. -/
inductive IceConnState
  | new
  | checking
  | connected
  | completed
  | failed
  | disconnected
  | closed
  deriving DecidableEq, Repr

/-- RTCDataChannel.readyState; `opened` stands for the literal
string value "open". -/
inductive ChannelState
  | connecting
  | opened
  | closing
  | closed
  deriving DecidableEq, Repr

/-- Signaling message kind. -/
inductive SigType
  | offer
  | answer
  | iceCandidate
  deriving DecidableEq, Repr

/-- SignalingData (p2p.service.ts lines 10-15).  The negotiation
payload (RTCSessionDescriptionInit / RTCIceCandidateInit) is an opaque
blob, modelled as a string. -/
structure SignalingData where
  type : SigType
  contactId : String
  data : String
  timestamp : Nat
  deriving DecidableEq, Repr

/-- ConnectionHandshakeData (p2p.service.ts lines 21-27). -/
structure ConnectionHandshakeData where
  version : String
  userId : String
  username : String
  publicKey : String
  connectionData : Option (List SignalingData)
  deriving DecidableEq, Repr

/-- P2PConnection (p2p-connection.interface.ts), with the transport and
channel handles replaced by their observable state.  `appliedCandidates`
records the candidates handed to `peerConnection.addIceCandidate`;
`remoteDesc`/`localDesc` record `setRemoteDescription` /
`setLocalDescription`. -/
structure P2PConnection where
  contactId : String
  dataChannel : Option ChannelState
  connectionState : PeerConnectionState
  iceConnectionState : IceConnState
  appliedCandidates : List String
  remoteDesc : Option String
  localDesc : Option String
  deriving DecidableEq, Repr

/-- Errors thrown by P2PService, named after the spec taxonomy.
`noConnection` is the `No connection found for contact` throw,
`channelNotOpen` the `Data channel not open for contact` throw,
`invalidSignalingFormat` the `Invalid signaling data format` rethrow. -/
inductive P2PError
  | noConnection (id : String)
  | channelNotOpen (id : String)
  | invalidSignalingFormat
  deriving DecidableEq, Repr

/-- The whole mutable state of the P2PService singleton, together with
the storage collaborator's connection-data store and a ghost log of
transport writes.  `currentUser` models UserService.currentUser().
`now` models Date.now(). -/
structure P2PState where
  connections : String → Option P2PConnection
  messageCallbacks : String → Option (List Nat)
  pendingSignalingData : String → Option (List SignalingData)
  iceCandidateCallbacks : String → Option Nat
  connectionStates : String → Option PeerConnectionState
  iceStates : String → Option IceConnState
  storedConnectionData : String → Option (List SignalingData)
  sentBytes : List (String × String)
  currentUser : Option String
  now : Nat

/-- Pointwise map update. -/
def upd {α : Type} (m : String → Option α) (k : String) (v : Option α) :
    String → Option α :=
  fun x => if x = k then v else m x

/-- Empty service state with a logged-in user "u". -/
def initP2P : P2PState where
  connections := fun _ => none
  messageCallbacks := fun _ => none
  pendingSignalingData := fun _ => none
  iceCandidateCallbacks := fun _ => none
  connectionStates := fun _ => none
  iceStates := fun _ => none
  storedConnectionData := fun _ => none
  sentBytes := []
  currentUser := some "u"
  now := 0

/-- getConnectionState (p2p.service.ts lines 48-50): map lookup with
default 'disconnected'. -/
def getConnectionState (s : P2PState) (contactId : String) :
    PeerConnectionState :=
  (s.connectionStates contactId).getD .disconnected

/-- hasConnection (p2p.service.ts lines 62-64). -/
def hasConnection (s : P2PState) (contactId : String) : Bool :=
  (s.connections contactId).isSome

/-- updateConnectionState (p2p.service.ts lines 546-558): writes the
signal map unconditionally, then mirrors into the connection object if
one is registered. -/
def updateConnectionState (s : P2PState) (contactId : String)
    (st : PeerConnectionState) : P2PState :=
  let s1 := { s with connectionStates := upd s.connectionStates contactId (some st) }
  match s1.connections contactId with
  | some c =>
      let c2 := { c with connectionState := st }
      { s1 with connections := upd s1.connections contactId (some c2) }
  | none => s1

/-- updateIceState (p2p.service.ts lines 563-575). -/
def updateIceState (s : P2PState) (contactId : String)
    (st : IceConnState) : P2PState :=
  let s1 := { s with iceStates := upd s.iceStates contactId (some st) }
  match s1.connections contactId with
  | some c =>
      let c2 := { c with iceConnectionState := st }
      { s1 with connections := upd s1.connections contactId (some c2) }
  | none => s1

/-- closeConnection (p2p.service.ts lines 296-324): early return when no
connection is registered; otherwise closes channel and transport and
deletes the registry entry, the message callbacks, the pending
signaling buffer and both state-map entries.  The source does not
delete the iceCandidateCallbacks entry. -/
def closeConnection (s : P2PState) (contactId : String) : P2PState :=
  match s.connections contactId with
  | none => s
  | some _ =>
      { s with
        connections := upd s.connections contactId none
        messageCallbacks := upd s.messageCallbacks contactId none
        pendingSignalingData := upd s.pendingSignalingData contactId none
        connectionStates := upd s.connectionStates contactId none
        iceStates := upd s.iceStates contactId none }

/-- createConnection (p2p.service.ts lines 69-123): closes any existing
connection first, allocates a transport and an eager data channel,
registers all handlers (modelled by `stepP2P` below), stores the
connection record and initialises both state maps. -/
def createConnection (s : P2PState) (contactId : String) :
    P2PState × P2PConnection :=
  let s0 := if (s.connections contactId).isSome
    then closeConnection s contactId else s
  let conn : P2PConnection :=
    { contactId := contactId
      dataChannel := some .connecting
      connectionState := .connecting
      iceConnectionState := .new
      appliedCandidates := []
      remoteDesc := none
      localDesc := none }
  let s1 := { s0 with connections := upd s0.connections contactId (some conn) }
  let s2 := updateConnectionState s1 contactId .connecting
  let s3 := updateIceState s2 contactId .new
  (s3, conn)

/-- storeSignalingData (p2p.service.ts lines 517-522): append to the
per-contact pending-export buffer, creating it when absent. -/
def storeSignalingData (s : P2PState) (contactId : String)
    (d : SignalingData) : P2PState :=
  let l := (s.pendingSignalingData contactId).getD [] ++ [d]
  { s with pendingSignalingData := upd s.pendingSignalingData contactId (some l) }

/-- StorageService.saveConnectionData (storage.service.ts): replaces the
stored record for the contact. -/
def saveConnectionData (s : P2PState) (contactId : String)
    (l : List SignalingData) : P2PState :=
  { s with storedConnectionData := upd s.storedConnectionData contactId (some l) }

/-- StorageService.addIceCandidateToConnectionData (storage.service.ts):
appends to the stored record, creating it when absent. -/
def addIceCandidateToConnectionData (s : P2PState) (contactId : String)
    (d : SignalingData) : P2PState :=
  let l := (s.storedConnectionData contactId).getD [] ++ [d]
  { s with storedConnectionData := upd s.storedConnectionData contactId (some l) }

/-- handleIceCandidate (p2p.service.ts lines 224-254): wrap the incoming
candidate as ice-candidate SignalingData, append it to the pending
buffer, persist it (when a user is logged in; storage errors are caught
and only logged), then apply it immediately if a connection exists
(addIceCandidate errors are caught and only logged). -/
def handleIceCandidate (s : P2PState) (candidate : String)
    (contactId : String) : P2PState :=
  let sd : SignalingData :=
    { type := .iceCandidate, contactId := contactId, data := candidate,
      timestamp := s.now }
  let s1 := storeSignalingData s contactId sd
  let s2 := match s1.currentUser with
    | some _ => addIceCandidateToConnectionData s1 contactId sd
    | none => s1
  match s2.connections contactId with
  | some c =>
      let c2 := { c with appliedCandidates := c.appliedCandidates ++ [candidate] }
      { s2 with connections := upd s2.connections contactId (some c2) }
  | none => s2

/-- sendOffer (p2p.service.ts lines 128-154): create a connection,
generate and set the local offer, buffer it and persist it. -/
def sendOffer (s : P2PState) (contactId : String) (offerBlob : String) :
    P2PState × SignalingData :=
  let (s1, _) := createConnection s contactId
  let s2 := match s1.connections contactId with
    | some c =>
        let c2 := { c with localDesc := some offerBlob }
        { s1 with connections := upd s1.connections contactId (some c2) }
    | none => s1
  let sd : SignalingData :=
    { type := .offer, contactId := contactId, data := offerBlob,
      timestamp := s.now }
  let s3 := storeSignalingData s2 contactId sd
  let s4 := match s3.currentUser with
    | some _ => saveConnectionData s3 contactId [sd]
    | none => s3
  (s4, sd)

/-- handleOffer (p2p.service.ts lines 159-189): create a connection
(answering side), apply the remote offer, generate and set the local
answer, buffer and persist the answer. -/
def handleOffer (s : P2PState) (offer : String) (contactId : String)
    (answerBlob : String) : P2PState × SignalingData :=
  let (s1, _) := createConnection s contactId
  let s2 := match s1.connections contactId with
    | some c =>
        let c2 := { c with remoteDesc := some offer, localDesc := some answerBlob }
        { s1 with connections := upd s1.connections contactId (some c2) }
    | none => s1
  let sd : SignalingData :=
    { type := .answer, contactId := contactId, data := answerBlob,
      timestamp := s.now }
  let s3 := storeSignalingData s2 contactId sd
  let s4 := match s3.currentUser with
    | some _ => saveConnectionData s3 contactId
        ((s3.storedConnectionData contactId).getD [] ++ [sd])
    | none => s3
  (s4, sd)

/-- handleAnswer (p2p.service.ts lines 194-219): throws (`noConnection`)
when no connection is registered; otherwise applies the remote answer
and persists it.  The pair carries the state reached at the point of
the throw, since the service mutates in place. -/
def handleAnswer (s : P2PState) (answer : String) (contactId : String) :
    P2PState × Option P2PError :=
  match s.connections contactId with
  | none => (s, some (.noConnection contactId))
  | some c =>
      let c2 := { c with remoteDesc := some answer }
      let s1 := { s with connections := upd s.connections contactId (some c2) }
      let sd : SignalingData :=
        { type := .answer, contactId := contactId, data := answer,
          timestamp := s.now }
      let s2 := match s1.currentUser with
        | some _ => saveConnectionData s1 contactId
            ((s1.storedConnectionData contactId).getD [] ++ [sd])
        | none => s1
      (s2, none)

/-- sendMessage (p2p.service.ts lines 259-270): throws `noConnection`
when no connection is registered, `channelNotOpen` when the data
channel is missing or its readyState is not 'open'; otherwise writes
the bytes to the channel. -/
def p2pSendMessage (s : P2PState) (message : String) (contactId : String) :
    P2PState × Option P2PError :=
  match s.connections contactId with
  | none => (s, some (.noConnection contactId))
  | some c =>
      match c.dataChannel with
      | some .opened =>
          ({ s with sentBytes := s.sentBytes ++ [(contactId, message)] }, none)
      | _ => (s, some (.channelNotOpen contactId))

/-- onMessage (p2p.service.ts lines 275-291): set-semantics callback
registration; the returned unsubscriber is not modelled (only the
registration table is). -/
def onMessage (s : P2PState) (contactId : String) (callback : Nat) : P2PState :=
  let existing := (s.messageCallbacks contactId).getD []
  let added := if callback ∈ existing then existing else existing ++ [callback]
  { s with messageCallbacks := upd s.messageCallbacks contactId (some added) }

/-- onIceCandidateGenerated (p2p.service.ts lines 385-392): one callback
per contact, overwritten on re-registration. -/
def onIceCandidateGenerated (s : P2PState) (contactId : String)
    (callback : Nat) : P2PState :=
  { s with iceCandidateCallbacks := upd s.iceCandidateCallbacks contactId (some callback) }

/-- exportSignalingData (p2p.service.ts lines 329-336): `null` when the
pending buffer is missing or empty, otherwise the buffer content (the
JSON.stringify serialization step is elided; the returned value is the
array being serialized). -/
def exportSignalingData (s : P2PState) (contactId : String) :
    Option (List SignalingData) :=
  match s.pendingSignalingData contactId with
  | none => none
  | some l => if l.length = 0 then none else some l

/-- getPendingSignalingData (p2p.service.ts lines 397-399). -/
def getPendingSignalingData (s : P2PState) (contactId : String) :
    List SignalingData :=
  (s.pendingSignalingData contactId).getD []

/-- clearPendingSignalingData (p2p.service.ts lines 404-406). -/
def clearPendingSignalingData (s : P2PState) (contactId : String) : P2PState :=
  { s with pendingSignalingData := upd s.pendingSignalingData contactId none }

/-- createHandshakeData (p2p.service.ts lines 412-429): always version
"1.0" with the caller's identity; includes connectionData only when a
contact id is supplied and its pending buffer is non-empty. -/
def createHandshakeData (s : P2PState) (userId username publicKey : String)
    (contactId : Option String) : ConnectionHandshakeData :=
  let base : ConnectionHandshakeData :=
    { version := "1.0", userId := userId, username := username,
      publicKey := publicKey, connectionData := none }
  match contactId with
  | none => base
  | some cid =>
      match s.pendingSignalingData cid with
      | some l =>
          if l.length > 0 then { base with connectionData := some l } else base
      | none => base

/-- parseHandshakeData (p2p.service.ts lines 434-448), over an already
JSON-decoded candidate record: `null` unless version, userId, username
and publicKey are all present (non-empty in the truthiness sense). -/
def parseHandshakeData (version userId username publicKey : String)
    (connectionData : Option (List SignalingData)) :
    Option ConnectionHandshakeData :=
  if version ≠ "" ∧ userId ≠ "" ∧ username ≠ "" ∧ publicKey ≠ "" then
    some { version := version, userId := userId, username := username,
           publicKey := publicKey, connectionData := connectionData }
  else none

/-- processSignalingData (p2p.service.ts lines 527-541): dispatch one
entry by its kind.  The generated local blobs (answer text) are
irrelevant to the claims and instantiated with a fixed tag. -/
def processSignalingData (s : P2PState) (sd : SignalingData) :
    P2PState × Option P2PError :=
  match sd.type with
  | .offer => ((handleOffer s sd.data sd.contactId "answer-sdp").1, none)
  | .answer => handleAnswer s sd.data sd.contactId
  | .iceCandidate => (handleIceCandidate s sd.data sd.contactId, none)

/-- The entry-processing loop inside importSignalingData (p2p.service.ts
lines 353-356): entries are applied strictly in array order and the
loop stops at the first throw. -/
def processLoop (s : P2PState) : List SignalingData → P2PState × Option P2PError
  | [] => (s, none)
  | sd :: rest =>
      match processSignalingData s sd with
      | (s1, none) => processLoop s1 rest
      | (s1, some e) => (s1, some e)

/-- importSignalingData (p2p.service.ts lines 341-361), over an already
JSON-decoded batch: optionally persists the batch, then processes the
entries in order inside one try/catch whose handler rethrows
`Invalid signaling data format`; mutations made before a throw remain. -/
def importSignalingData (s : P2PState) (dataArray : List SignalingData)
    (contactId : Option String) : P2PState × Option P2PError :=
  let s0 := match contactId, s.currentUser with
    | some cid, some _ => saveConnectionData s cid dataArray
    | _, _ => s
  match processLoop s0 dataArray with
  | (s1, none) => (s1, none)
  | (s1, some _) => (s1, some .invalidSignalingFormat)

/-- autoConnect (p2p.service.ts lines 366-380): replays the persisted
connection data through processSignalingData; every error is caught and
only logged. -/
def autoConnect (s : P2PState) (contactId : String) : P2PState :=
  match s.storedConnectionData contactId with
  | none => s
  | some l =>
      if l.length > 0 then (processLoop s l).1 else s

/-- handleIceCandidateGeneration (p2p.service.ts lines 486-512): wrap
the locally gathered candidate, buffer it, persist it, and notify the
per-contact callback if registered (the callback side effect is
external and leaves this state unchanged). -/
def handleIceCandidateGeneration (s : P2PState) (candidate : String)
    (contactId : String) : P2PState :=
  let sd : SignalingData :=
    { type := .iceCandidate, contactId := contactId, data := candidate,
      timestamp := s.now }
  let s1 := storeSignalingData s contactId sd
  match s1.currentUser with
  | some _ => addIceCandidateToConnectionData s1 contactId sd
  | none => s1

/-- The asynchronous events the registered handlers react to.
channelOpen/channelClose/channelError/channelMessage are the
RTCDataChannel events wired in setupDataChannel (p2p.service.ts lines
453-481); connectionStateChange and iceStateChange are the transport
handlers wired in createConnection (lines 94-101); iceCandidateGen is
onicecandidate (lines 88-92); incomingChannel is ondatachannel (lines
104-107); createConn/closeConn are the public lifecycle calls. -/
inductive P2PEvent
  | channelOpen (id : String)
  | channelClose (id : String)
  | channelError (id : String)
  | channelMessage (id : String) (data : String)
  | connectionStateChange (id : String) (st : PeerConnectionState)
  | iceStateChange (id : String) (st : IceConnState)
  | iceCandidateGen (id : String) (candidate : String)
  | incomingChannel (id : String)
  | createConn (id : String)
  | closeConn (id : String)
  deriving DecidableEq, Repr

/-- Mark the registered channel state for a contact, modelling the
browser updating readyState before firing the handler. -/
def setChannelState (s : P2PState) (id : String) (st : ChannelState) : P2PState :=
  match s.connections id with
  | some c =>
      let c2 := { c with dataChannel := some st }
      { s with connections := upd s.connections id (some c2) }
  | none => s

/-- One event step of the service: the handler bodies from
setupDataChannel and createConnection. -/
def stepP2P (s : P2PState) : P2PEvent → P2PState
  | .channelOpen id =>
      updateConnectionState (setChannelState s id .opened) id .connected
  | .channelClose id =>
      updateConnectionState (setChannelState s id .closed) id .disconnected
  | .channelError id => updateConnectionState s id .failed
  | .channelMessage _ _ => s
  | .connectionStateChange id st => updateConnectionState s id st
  | .iceStateChange id st => updateIceState s id st
  | .iceCandidateGen id candidate => handleIceCandidateGeneration s candidate id
  | .incomingChannel id => setChannelState s id .connecting
  | .createConn id => (createConnection s id).1
  | .closeConn id => closeConnection s id

/-- Run a list of events left to right. -/
def runP2P (s : P2PState) (es : List P2PEvent) : P2PState :=
  es.foldl stepP2P s

/-- User (interfaces): the local identity; keys are the exported
base64 strings. -/
structure User where
  id : String
  username : String
  publicKey : List Char
  privateKey : List Char

/-- Contact (interfaces): a remote identity with a known public key. -/
structure Contact where
  id : String
  username : String
  publicKey : List Char

/-- Message.attachment (interfaces). -/
structure MsgAttachment where
  type : String
  data : String
  filename : String
  size : Nat
  encryptedData : Option EncryptedContent
  deriving DecidableEq, Repr

/-- Message (interfaces). -/
structure Message where
  id : String
  senderId : String
  recipientId : String
  content : String
  encryptedContent : Option EncryptedContent
  attachment : Option MsgAttachment
  timestamp : Nat
  encrypted : Bool
  delivered : Bool
  read : Bool
  deriving DecidableEq, Repr

/-- MessageService signals, the storage collaborator's message store,
the ContactService counters, and logs of the ErrorService calls. -/
structure MsgState where
  messages : List Message
  currentContactId : Option String
  storedMessages : List Message
  unreadCounts : String → Nat
  lastMessageAt : String → Option Nat
  errorLog : List String
  warnLog : List String

/-- Empty message-pipeline state. -/
def initMsg : MsgState where
  messages := []
  currentContactId := none
  storedMessages := []
  unreadCounts := fun _ => 0
  lastMessageAt := fun _ => none
  errorLog := []
  warnLog := []

/-- The attachment part of the serialized P2P payload
(message.service.ts lines 164-170). -/
structure OutgoingAttachment where
  encryptedData : EncryptedContent
  filename : String
  size : Nat
  type : String
  mimeType : String
  deriving DecidableEq, Repr

/-- The object JSON.stringify-ed for P2P transmission
(message.service.ts lines 162-172). -/
structure OutgoingPayload where
  encryptedContent : EncryptedContent
  attachment : Option OutgoingAttachment
  timestamp : Nat
  deriving DecidableEq, Repr

/-- The JSON.parse result of an incoming payload's attachment field
(message.service.ts lines 296-323). -/
structure IncomingAttachmentPayload where
  encryptedData : Option EncryptedContent
  data : Option String
  filename : String
  size : Nat
  type : Option String
  mimeType : Option String

/-- The JSON.parse result of an incoming payload
(message.service.ts lines 269-291). -/
structure IncomingPayload where
  encryptedContent : Option EncryptedContent
  text : Option String
  attachment : Option IncomingAttachmentPayload
  timestamp : Option Nat

/-- markAsRead (message.service.ts lines 212-239). -/
def markAsRead (u : User) (contactId : String) (mst : MsgState) : MsgState :=
  let toUpdate := mst.messages.filter
    (fun m => m.recipientId == u.id && m.senderId == contactId && !m.read)
  if toUpdate.isEmpty then mst
  else
    let stored := mst.storedMessages ++ toUpdate.map (fun m => { m with read := true })
    let msgs := mst.messages.map
      (fun m => if m.recipientId == u.id && m.senderId == contactId && !m.read
        then { m with read := true } else m)
    let unread := fun k => if k = contactId then 0 else mst.unreadCounts k
    { mst with storedMessages := stored, messages := msgs, unreadCounts := unread }

/-- MessageService.sendMessage (message.service.ts lines 80-207).
External collaborators appear as parameters: `sanitize` is
SanitizationUtil.sanitizeMessage, `stringify` is JSON.stringify of the
outgoing payload, `newId` is crypto.randomUUID(), `ts` is the Date
timestamp, `aesKey`/`ivB` and `akey`/`aiv` are the fresh AES keys and
IVs generated inside the two hybrid encryptions, and an attachment is
given post-fileToBase64 as its data URL, decoded bytes, filename and
size.  The third component is the error that propagates to the caller
(`throw error` paths); warnings and handled errors go to the logs. -/
def msgSendMessage (C : HybridCrypto) (sanitize : String → String)
    (stringify : OutgoingPayload → String)
    (user : Option User) (contacts : List Contact)
    (newId : String) (ts : Nat)
    (aesKey ivB akey aiv : List Byte)
    (text contactId : String)
    (attachment : Option (String × List Byte × String × Nat))
    (pst : P2PState) (mst : MsgState) :
    MsgState × P2PState × Option String :=
  match user with
  | none => (mst, pst, some "User must be authenticated to send messages")
  | some u =>
    let sanitizedText := sanitize text
    match contacts.find? (fun c => c.id == contactId) with
    | none => (mst, pst, some "Contact not found")
    | some contact =>
      match C.importPublicKey contact.publicKey with
      | none =>
          let mst1 := { mst with errorLog :=
            mst.errorLog ++ ["importing contact public key"] }
          (mst1, pst, some "importPublicKey failed")
      | some recipientPublicKey =>
        let encryptedContent :=
          encryptMessageHybrid C aesKey ivB sanitizedText recipientPublicKey
        let attachPair :
            Option MsgAttachment × Option OutgoingAttachment :=
          match attachment with
          | none => (none, none)
          | some (dataUrl, bytes, filename, size) =>
              let ea := encryptAttachmentHybrid C akey aiv bytes recipientPublicKey
              (some { type := "image", data := dataUrl, filename := filename,
                      size := size, encryptedData := some ea },
               some { encryptedData := ea, filename := filename, size := size,
                      type := "image", mimeType := "image/jpeg" })
        let message : Message :=
          { id := newId, senderId := u.id, recipientId := contactId,
            content := sanitizedText, encryptedContent := some encryptedContent,
            attachment := attachPair.1, timestamp := ts, encrypted := true,
            delivered := false, read := false }
        let payload : OutgoingPayload :=
          { encryptedContent := encryptedContent, attachment := attachPair.2,
            timestamp := ts }
        let afterP2P : Message × P2PState × MsgState :=
          if hasConnection pst contactId then
            if getConnectionState pst contactId = .connected then
              match p2pSendMessage pst (stringify payload) contactId with
              | (pst1, none) => ({ message with delivered := true }, pst1, mst)
              | (pst1, some _) =>
                  (message, pst1,
                   { mst with errorLog := mst.errorLog ++ ["sending message via P2P"] })
            else
              (message, pst,
               { mst with warnLog := mst.warnLog ++
                 ["Message saved but not delivered. Connection not established."] })
          else
            (message, pst,
             { mst with warnLog := mst.warnLog ++
               ["Message saved but not delivered. Please establish connection first."] })
        let m2 := afterP2P.1
        let pst2 := afterP2P.2.1
        let mstL := afterP2P.2.2
        let mst2 := { mstL with
          storedMessages := mstL.storedMessages ++ [m2]
          messages := mstL.messages ++ [m2]
          lastMessageAt := fun k => if k = contactId then some ts else mstL.lastMessageAt k }
        (mst2, pst2, none)

/-- The body of the try block of handleIncomingMessage
(message.service.ts lines 268-350), as an Except whose error is the
context string passed to ErrorService.handleError. -/
def incomingTry (C : HybridCrypto) (parseJson : String → Option IncomingPayload)
    (sanitize : String → String) (u : User) (newId : String) (nowTs : Nat)
    (messageData contactId : String) (mst : MsgState) : Except String MsgState :=
  match parseJson messageData with
  | none => .error "processing incoming message"
  | some payload =>
    match C.importPrivateKey u.privateKey with
    | none => .error "processing incoming message"
    | some privateKey =>
      let contentRes : Except String String :=
        match payload.encryptedContent with
        | some ec =>
            match decryptMessageHybrid C ec.encryptedData ec.encryptedKey
                ec.iv privateKey with
            | some rawContent => .ok (sanitize rawContent)
            | none => .error "processing incoming message"
        | none =>
            match payload.text with
            | some t => .ok (sanitize t)
            | none => .error "processing incoming message"
      match contentRes with
      | .error e => .error e
      | .ok decryptedContent =>
        let attachRes : Except String (Option MsgAttachment) :=
          match payload.attachment with
          | none => .ok none
          | some att =>
            match att.encryptedData with
            | some ea =>
                match decryptAttachmentHybrid C ea.encryptedData
                    ea.encryptedKey ea.iv privateKey with
                | none => .error "processing incoming message"
                | some decryptedBase64 =>
                    let s := String.mk decryptedBase64
                    let mime := att.mimeType.getD "image/jpeg"
                    let dataUrl := if s.startsWith "data:" then s
                      else "data:" ++ mime ++ ";base64," ++ s
                    .ok (some { type := att.type.getD "image", data := dataUrl,
                                filename := att.filename, size := att.size,
                                encryptedData := none })
            | none =>
                match att.data with
                | some d =>
                    .ok (some { type := att.type.getD "image", data := d,
                                filename := att.filename, size := att.size,
                                encryptedData := none })
                | none => .ok none
        match attachRes with
        | .error e => .error e
        | .ok attachmentData =>
          let message : Message :=
            { id := newId, senderId := contactId, recipientId := u.id,
              content := decryptedContent, encryptedContent := none,
              attachment := attachmentData,
              timestamp := payload.timestamp.getD nowTs,
              encrypted := payload.encryptedContent.isSome,
              delivered := true, read := false }
          let mst1 := { mst with storedMessages := mst.storedMessages ++ [message] }
          let mst2 :=
            if mst1.currentContactId = some contactId then
              markAsRead u contactId { mst1 with messages := mst1.messages ++ [message] }
            else
              { mst1 with unreadCounts := fun k =>
                  if k = contactId then mst1.unreadCounts k + 1 else mst1.unreadCounts k }
          let mst3 := { mst2 with lastMessageAt := fun k =>
              if k = contactId then some message.timestamp else mst2.lastMessageAt k }
          .ok mst3

/-- handleIncomingMessage (message.service.ts lines 262-355): early
return without a user; otherwise the try body above, with the catch
clause logging the error and deliberately not rethrowing. -/
def handleIncomingMessage (C : HybridCrypto)
    (parseJson : String → Option IncomingPayload)
    (sanitize : String → String) (user : Option User) (newId : String)
    (nowTs : Nat) (messageData contactId : String) (mst : MsgState) : MsgState :=
  match user with
  | none => mst
  | some u =>
    match incomingTry C parseJson sanitize u newId nowTs messageData contactId mst with
    | .ok mst2 => mst2
    | .error e => { mst with errorLog := mst.errorLog ++ [e] }

lemma upd_self {α : Type} (m : String → Option α) (k : String) (v : Option α) :
    upd m k v k = v := by
  simp [upd]

lemma upd_other {α : Type} (m : String → Option α) (k : String) (v : Option α)
    (x : String) (h : x ≠ k) : upd m k v x = m x := by
  simp [upd, h]

lemma connectionStates_updateConnectionState (s : P2PState) (id : String)
    (st : PeerConnectionState) :
    (updateConnectionState s id st).connectionStates =
      upd s.connectionStates id (some st) := by
  unfold updateConnectionState
  cases hc : s.connections id <;> simp [hc]

lemma connectionStates_updateIceState (s : P2PState) (id : String)
    (st : IceConnState) :
    (updateIceState s id st).connectionStates = s.connectionStates := by
  unfold updateIceState
  cases hc : s.connections id <;> simp [hc]

lemma connectionStates_setChannelState (s : P2PState) (id : String)
    (st : ChannelState) :
    (setChannelState s id st).connectionStates = s.connectionStates := by
  unfold setChannelState
  cases hc : s.connections id <;> simp [hc]

lemma connectionStates_handleIceCandidateGeneration (s : P2PState)
    (cand id : String) :
    (handleIceCandidateGeneration s cand id).connectionStates =
      s.connectionStates := by
  unfold handleIceCandidateGeneration storeSignalingData
    addIceCandidateToConnectionData
  cases hc : s.currentUser <;> simp [hc]

lemma getConnectionState_update (s : P2PState) (id : String)
    (st : PeerConnectionState) (x : String) :
    getConnectionState (updateConnectionState s id st) x =
      if x = id then st else getConnectionState s x := by
  simp only [getConnectionState, connectionStates_updateConnectionState, upd]
  split <;> rfl

lemma getConnectionState_setChannelState (s : P2PState) (id : String)
    (st : ChannelState) (x : String) :
    getConnectionState (setChannelState s id st) x = getConnectionState s x := by
  simp only [getConnectionState, connectionStates_setChannelState]

lemma getConnectionState_closeConnection (s : P2PState) (id x : String) :
    getConnectionState (closeConnection s id) x =
      if x = id then
        (if (s.connections id).isSome then .disconnected else getConnectionState s x)
      else getConnectionState s x := by
  unfold closeConnection
  cases hc : s.connections id with
  | none => simp [hc]
  | some c =>
      simp only [hc, Option.isSome_some, if_true, getConnectionState, upd]
      split <;> rfl

lemma getConnectionState_updateIceState (s : P2PState) (id : String)
    (st : IceConnState) (x : String) :
    getConnectionState (updateIceState s id st) x = getConnectionState s x := by
  simp only [getConnectionState, connectionStates_updateIceState]

lemma getConnectionState_createConnection (s : P2PState) (id x : String) :
    getConnectionState (createConnection s id).1 x =
      if x = id then .connecting else getConnectionState s x := by
  unfold createConnection
  simp only [getConnectionState_updateIceState, getConnectionState_update]
  by_cases hx : x = id
  · simp [hx]
  · rw [if_neg hx, if_neg hx]
    have hmid : getConnectionState
        ({ (if (s.connections id).isSome then closeConnection s id else s) with
           connections := upd (if (s.connections id).isSome then
             closeConnection s id else s).connections id
             (some { contactId := id, dataChannel := some .connecting,
                     connectionState := .connecting, iceConnectionState := .new,
                     appliedCandidates := [], remoteDesc := none,
                     localDesc := none }) }) x =
        getConnectionState
          (if (s.connections id).isSome then closeConnection s id else s) x := rfl
    rw [hmid]
    split
    · have h2 := getConnectionState_closeConnection s id x
      rw [if_neg hx] at h2
      exact h2
    · rfl

/-- C3 counterexample: from a fresh session, a transport-level
connection-state change reporting "connected" alone — with no
channel-open event anywhere in the trace — moves the session's
connectionState to 'connected' (the onconnectionstatechange handler at
p2p.service.ts lines 95-97 copies pc.connectionState straight into the
state map). -/
theorem transport_connected_counterexample :
    getConnectionState
      (runP2P initP2P
        [.createConn "a", .connectionStateChange "a" .connected]) "a" =
      .connected ∧
    (P2PEvent.channelOpen "a") ∉
      [P2PEvent.createConn "a", P2PEvent.connectionStateChange "a" .connected] := by
  constructor
  · rfl
  · decide

/-- C3 amended: a session's connectionState becomes 'connected' only
through the channel-open handler or through a transport
connection-state change that itself reports 'connected'; every other
event leaves a previously non-connected session non-connected. -/
theorem connectionState_connected_sources (s : P2PState) (e : P2PEvent)
    (id : String)
    (h : getConnectionState (stepP2P s e) id = .connected) :
    getConnectionState s id = .connected ∨
    e = .channelOpen id ∨ e = .connectionStateChange id .connected := by
  cases e with
  | channelOpen id2 =>
      by_cases hx : id = id2
      · subst hx; exact Or.inr (Or.inl rfl)
      · left
        simp only [stepP2P, getConnectionState_update, if_neg hx,
          getConnectionState_setChannelState] at h
        exact h
  | channelClose id2 =>
      left
      simp only [stepP2P, getConnectionState_update,
        getConnectionState_setChannelState] at h
      by_cases hx : id = id2
      · rw [if_pos hx] at h; cases h
      · rw [if_neg hx] at h; exact h
  | channelError id2 =>
      left
      simp only [stepP2P, getConnectionState_update] at h
      by_cases hx : id = id2
      · rw [if_pos hx] at h; cases h
      · rw [if_neg hx] at h; exact h
  | channelMessage id2 d =>
      left; exact h
  | connectionStateChange id2 st =>
      simp only [stepP2P, getConnectionState_update] at h
      by_cases hx : id = id2
      · rw [if_pos hx] at h
        subst hx; subst h
        exact Or.inr (Or.inr rfl)
      · rw [if_neg hx] at h
        exact Or.inl h
  | iceStateChange id2 st =>
      left
      simp only [stepP2P, getConnectionState, connectionStates_updateIceState] at h
      exact h
  | iceCandidateGen id2 cand =>
      left
      simp only [stepP2P, getConnectionState,
        connectionStates_handleIceCandidateGeneration] at h
      exact h
  | incomingChannel id2 =>
      left
      simp only [stepP2P, getConnectionState_setChannelState] at h
      exact h
  | createConn id2 =>
      left
      simp only [stepP2P, getConnectionState_createConnection] at h
      by_cases hx : id = id2
      · rw [if_pos hx] at h; cases h
      · rw [if_neg hx] at h; exact h
  | closeConn id2 =>
      left
      simp only [stepP2P, getConnectionState_closeConnection] at h
      by_cases hx : id = id2
      · rw [if_pos hx] at h
        split at h
        · cases h
        · exact h
      · rw [if_neg hx] at h; exact h

/-- Witness for the C3 amended theorem, at the channel-open event on a
fresh session. -/
theorem connectionState_connected_sources_witness :
    getConnectionState (stepP2P initP2P (.createConn "a")) "a" =
        .connected ∨
    P2PEvent.channelOpen "a" = .channelOpen "a" ∨
    P2PEvent.channelOpen "a" = .connectionStateChange "a" .connected :=
  connectionState_connected_sources (stepP2P initP2P (.createConn "a"))
    (.channelOpen "a") "a" (by decide)

/-- A demonstration connection record for counterexample states. -/
def demoConn : P2PConnection :=
  { contactId := "a", dataChannel := some .opened,
    connectionState := .connected, iceConnectionState := .connected,
    appliedCandidates := [], remoteDesc := none, localDesc := none }

/-- A state with a live session for "a", message callbacks, a pending
buffer, state-map entries and a registered ICE-candidate-generation
callback for "a". -/
def c5State : P2PState :=
  { initP2P with
    connections := upd initP2P.connections "a" (some demoConn)
    messageCallbacks := upd initP2P.messageCallbacks "a" (some [1])
    pendingSignalingData := upd initP2P.pendingSignalingData "a"
      (some [{ type := .offer, contactId := "a", data := "o", timestamp := 0 }])
    iceCandidateCallbacks := upd initP2P.iceCandidateCallbacks "a" (some 7)
    connectionStates := upd initP2P.connectionStates "a" (some .connected)
    iceStates := upd initP2P.iceStates "a" (some .connected) }

/-- C5 counterexample: a session for "a" exists and an
ICE-candidate-generation callback is registered for "a"; closeConnection
removes the session but leaves that callback registered, contradicting
the claim that every per-contact registration — including the
ICE-candidate-generation callback — is removed (closeConnection,
p2p.service.ts lines 296-324, never touches iceCandidateCallbacks). -/
theorem closeConnection_leaves_ice_callback_counterexample :
    (c5State.connections "a").isSome = true ∧
    (closeConnection c5State "a").connections "a" = none ∧
    (closeConnection c5State "a").iceCandidateCallbacks "a" = some 7 := by
  refine ⟨rfl, ?_, ?_⟩ <;> rfl

/-- C5 amended: closeConnection is idempotent and a no-op when no
session exists; when a session exists it removes the session registry
entry, the message callbacks, the pending signaling buffer and the
connection/ICE state entries, but leaves the per-contact
ICE-candidate-generation callback registered; and calling
createConnection twice in a row leaves exactly one live (fresh) session
for the contact with the first session's message callbacks and pending
buffer released. -/
theorem closeConnection_cleanup (s : P2PState) (id : String) :
    (s.connections id = none → closeConnection s id = s) ∧
    (closeConnection (closeConnection s id) id = closeConnection s id) ∧
    ((s.connections id).isSome →
      (closeConnection s id).connections id = none ∧
      (closeConnection s id).messageCallbacks id = none ∧
      (closeConnection s id).pendingSignalingData id = none ∧
      (closeConnection s id).connectionStates id = none ∧
      (closeConnection s id).iceStates id = none ∧
      (closeConnection s id).iceCandidateCallbacks =
        s.iceCandidateCallbacks) ∧
    ((createConnection (createConnection s id).1 id).1.connections id =
        some { contactId := id, dataChannel := some .connecting,
               connectionState := .connecting, iceConnectionState := .new,
               appliedCandidates := [], remoteDesc := none,
               localDesc := none } ∧
      (createConnection (createConnection s id).1 id).1.messageCallbacks id = none ∧
      (createConnection (createConnection s id).1 id).1.pendingSignalingData id =
        none) := by
  refine ⟨?_, ?_, ?_, ?_⟩
  · intro h
    unfold closeConnection
    rw [h]
  · unfold closeConnection
    cases hc : s.connections id with
    | none => simp [hc]
    | some c => simp [hc, upd_self]
  · intro h
    unfold closeConnection
    cases hc : s.connections id with
    | none => simp [hc] at h
    | some c => simp [hc, upd_self]
  · unfold createConnection updateConnectionState updateIceState
    simp only [upd_self, Option.isSome_some, if_true]
    cases hc : (if (s.connections id).isSome then
        closeConnection s id else s).connections id <;>
      simp [upd_self, closeConnection]

/-- Witness for the C5 amended theorem at the concrete state c5State. -/
theorem closeConnection_cleanup_witness :
    (closeConnection c5State "a").connections "a" = none ∧
    (closeConnection c5State "a").messageCallbacks "a" = none ∧
    (closeConnection c5State "a").pendingSignalingData "a" = none ∧
    (closeConnection c5State "a").connectionStates "a" = none ∧
    (closeConnection c5State "a").iceStates "a" = none ∧
    (closeConnection c5State "a").iceCandidateCallbacks =
      c5State.iceCandidateCallbacks :=
  (closeConnection_cleanup c5State "a").2.2.1 rfl

/-- C6 counterexample: with no session at all (connectionState defaults
to 'disconnected', not 'connected'), sendMessage fails — but with the
`No connection found` error (NoSessionError), not ChannelNotOpenError
as the claim states (p2p.service.ts lines 260-263). -/
theorem send_no_session_error_counterexample :
    getConnectionState initP2P "a" ≠ .connected ∧
    (p2pSendMessage initP2P "m" "a").2 = some (.noConnection "a") ∧
    P2PError.noConnection "a" ≠ P2PError.channelNotOpen "a" ∧
    (p2pSendMessage initP2P "m" "a").1.sentBytes = [] := by
  refine ⟨by decide, rfl, by decide, rfl⟩

/-- C6 amended: sendMessage fails synchronously with no transport
write — with NoSessionError (`No connection found`) when no session is
registered, and with ChannelNotOpenError (`Data channel not open`) when
a session exists whose data channel is not open; the guard is the data
channel's readyState, not connectionState. -/
theorem send_fails_when_not_open (s : P2PState) (m id : String) :
    (s.connections id = none →
      p2pSendMessage s m id = (s, some (.noConnection id))) ∧
    (∀ c, s.connections id = some c → c.dataChannel ≠ some .opened →
      p2pSendMessage s m id = (s, some (.channelNotOpen id))) := by
  constructor
  · intro h
    unfold p2pSendMessage
    rw [h]
  · intro c hc hch
    unfold p2pSendMessage
    rw [hc]
    cases hdc : c.dataChannel with
    | none => simp [hdc]
    | some st =>
        cases st with
        | connecting => simp [hdc]
        | opened => exact absurd hdc hch
        | closing => simp [hdc]
        | closed => simp [hdc]

/-- Witness for the C6 amended theorem: the no-session branch at the
empty state. -/
theorem send_fails_when_not_open_witness :
    p2pSendMessage initP2P "m" "a" = (initP2P, some (.noConnection "a")) :=
  (send_fails_when_not_open initP2P "m" "a").1 rfl

/-- C4 counterexample: a decoded batch whose first entry is an answer
for an unknown session followed by an offer for another contact.  The
failure on the first entry is rethrown as the format error and the
second entry is never processed (no session is created for "y"),
contradicting the claim that a failure does not abort the rest of the
batch (the loop at p2p.service.ts lines 353-356 sits inside the
try/catch at lines 342-360 which rethrows). -/
theorem import_abort_counterexample :
    (importSignalingData initP2P
      [{ type := .answer, contactId := "x", data := "ans", timestamp := 0 },
       { type := .offer, contactId := "y", data := "off", timestamp := 0 }]
      none).2 = some .invalidSignalingFormat ∧
    (importSignalingData initP2P
      [{ type := .answer, contactId := "x", data := "ans", timestamp := 0 },
       { type := .offer, contactId := "y", data := "off", timestamp := 0 }]
      none).1.connections "y" = none := by
  exact ⟨rfl, rfl⟩

/-- C4 amended: a decoded batch is applied strictly in array order,
each entry dispatched by its kind through processSignalingData; a
success on the head entry continues the import from the updated state,
but a failure on one entry aborts the processing of all subsequent
entries and the whole import fails with the `Invalid signaling data
format` error (state mutations made before the failure remain). -/
theorem importSignaling_order_and_abort (s s1 : P2PState)
    (sd : SignalingData) (rest : List SignalingData) :
    (processSignalingData s sd = (s1, none) →
      importSignalingData s (sd :: rest) none =
        importSignalingData s1 rest none) ∧
    (∀ e, processSignalingData s sd = (s1, some e) →
      importSignalingData s (sd :: rest) none =
        (s1, some .invalidSignalingFormat)) := by
  constructor
  · intro h
    simp only [importSignalingData, processLoop, h]
  · intro e h
    simp only [importSignalingData, processLoop, h]

/-- Witness for the C4 amended theorem: the failing-entry branch at the
empty state, where an answer for an unknown session throws. -/
theorem importSignaling_order_and_abort_witness :
    importSignalingData initP2P
      [{ type := .answer, contactId := "x", data := "ans", timestamp := 0 }]
      none = (initP2P, some .invalidSignalingFormat) :=
  (importSignaling_order_and_abort initP2P initP2P
    { type := .answer, contactId := "x", data := "ans", timestamp := 0 }
    []).2 (.noConnection "x") rfl

lemma pending_handleIceCandidate (s : P2PState) (cand id : String) :
    (handleIceCandidate s cand id).pendingSignalingData =
      upd s.pendingSignalingData id
        (some ((s.pendingSignalingData id).getD [] ++
          [{ type := .iceCandidate, contactId := id, data := cand,
             timestamp := s.now }])) := by
  unfold handleIceCandidate storeSignalingData addIceCandidateToConnectionData
  cases hu : s.currentUser <;> cases hc : s.connections id <;> simp [hu, hc]

lemma connections_handleIceCandidate_none (s : P2PState) (cand id : String)
    (h : s.connections id = none) :
    (handleIceCandidate s cand id).connections id = none := by
  unfold handleIceCandidate storeSignalingData addIceCandidateToConnectionData
  cases hu : s.currentUser <;> simp [hu, h]

/-- C8 counterexample: a candidate accepted while no session exists is
buffered, but a subsequent createConnection starts the new session with
an empty applied-candidate list — the pending buffer is not replayed
into the session (createConnection, p2p.service.ts lines 69-123, never
reads pendingSignalingData). -/
theorem candidate_not_replayed_counterexample :
    (handleIceCandidate initP2P "cand" "a").connections "a" = none ∧
    (handleIceCandidate initP2P "cand" "a").pendingSignalingData "a" =
      some [{ type := .iceCandidate, contactId := "a", data := "cand",
              timestamp := 0 }] ∧
    (createConnection (handleIceCandidate initP2P "cand" "a") "a").1.connections
        "a" =
      some (createConnection (handleIceCandidate initP2P "cand" "a") "a").2 ∧
    (createConnection (handleIceCandidate initP2P "cand" "a") "a").2.appliedCandidates
      = [] := by
  refine ⟨rfl, rfl, ?_, rfl⟩
  rfl

/-- C8 amended: acceptCandidate applies the candidate immediately when
a session exists; when none exists it is buffered as a pending
ice-candidate SignalingMessage (and persisted), but creating a session
afterwards does not replay it — the new session starts with no applied
candidates, and replay happens only by explicitly re-processing the
persisted data (autoConnect). -/
theorem acceptCandidate_buffering (s : P2PState) (cand id : String) :
    (∀ c, s.connections id = some c →
      ∃ c2, (handleIceCandidate s cand id).connections id = some c2 ∧
        c2.appliedCandidates = c.appliedCandidates ++ [cand]) ∧
    (s.connections id = none →
      (handleIceCandidate s cand id).pendingSignalingData id =
        some ((s.pendingSignalingData id).getD [] ++
          [{ type := .iceCandidate, contactId := id, data := cand,
             timestamp := s.now }]) ∧
      (handleIceCandidate s cand id).connections id = none ∧
      (createConnection (handleIceCandidate s cand id) id).2.appliedCandidates
        = []) := by
  constructor
  · intro c hc
    refine ⟨{ c with appliedCandidates := c.appliedCandidates ++ [cand] }, ?_, rfl⟩
    unfold handleIceCandidate storeSignalingData addIceCandidateToConnectionData
    cases hu : s.currentUser <;> simp [hu, hc, upd_self]
  · intro h
    refine ⟨?_, connections_handleIceCandidate_none s cand id h, rfl⟩
    rw [pending_handleIceCandidate, upd_self]

/-- Witness for the C8 amended theorem: the no-session branch at the
empty state. -/
theorem acceptCandidate_buffering_witness :
    (handleIceCandidate initP2P "cand" "a").pendingSignalingData "a" =
      some [{ type := .iceCandidate, contactId := "a", data := "cand",
              timestamp := 0 }] ∧
    (handleIceCandidate initP2P "cand" "a").connections "a" = none ∧
    (createConnection (handleIceCandidate initP2P "cand" "a") "a").2.appliedCandidates
      = [] :=
  (acceptCandidate_buffering initP2P "cand" "a").2 rfl

/-- C10: every candidate handed to handleIceCandidate — including one
received from the remote peer — is appended to the contact's
pending-export buffer, so exportSignalingData and createHandshakeData
both expose a list containing it. -/
theorem received_candidate_exported (s : P2PState) (cand id : String)
    (uid uname pk : String) :
    ∃ l, (handleIceCandidate s cand id).pendingSignalingData id = some l ∧
      ({ type := .iceCandidate, contactId := id, data := cand,
         timestamp := s.now } : SignalingData) ∈ l ∧
      exportSignalingData (handleIceCandidate s cand id) id = some l ∧
      (createHandshakeData (handleIceCandidate s cand id) uid uname pk
        (some id)).connectionData = some l := by
  refine ⟨(s.pendingSignalingData id).getD [] ++
    [{ type := .iceCandidate, contactId := id, data := cand,
       timestamp := s.now }], ?_, ?_, ?_, ?_⟩
  · rw [pending_handleIceCandidate, upd_self]
  · simp
  · unfold exportSignalingData
    rw [pending_handleIceCandidate, upd_self]
    simp
  · unfold createHandshakeData
    rw [pending_handleIceCandidate]
    simp [upd_self]

/-- C7: when no session exists for the contact (or the session is not
connected), the pipeline still encrypts and persists the message: the
saved Message has delivered = false and encrypted = true, no bytes are
written to any transport, and no error escapes sendMessage. -/
theorem sendMessage_offline_saved (C : HybridCrypto)
    (sanitize : String → String) (stringify : OutgoingPayload → String)
    (contacts : List Contact) (u : User) (newId : String) (ts : Nat)
    (aesKey ivB akey aiv : List Byte) (text contactId : String)
    (attachment : Option (String × List Byte × String × Nat))
    (pst : P2PState) (mst : MsgState) (contact : Contact) (pub : List Byte)
    (hcontact : contacts.find? (fun c => c.id == contactId) = some contact)
    (hkey : C.importPublicKey contact.publicKey = some pub)
    (hconn : pst.connections contactId = none ∨
      getConnectionState pst contactId ≠ .connected) :
    ∃ m : Message,
      (msgSendMessage C sanitize stringify (some u) contacts newId ts
        aesKey ivB akey aiv text contactId attachment pst mst).1.storedMessages =
          mst.storedMessages ++ [m] ∧
      m.delivered = false ∧ m.encrypted = true ∧
      (msgSendMessage C sanitize stringify (some u) contacts newId ts
        aesKey ivB akey aiv text contactId attachment pst mst).2.1.sentBytes =
          pst.sentBytes ∧
      (msgSendMessage C sanitize stringify (some u) contacts newId ts
        aesKey ivB akey aiv text contactId attachment pst mst).2.2 = none := by
  have hnotconn : (hasConnection pst contactId = false) ∨
      (hasConnection pst contactId = true ∧
        getConnectionState pst contactId ≠ .connected) := by
    rcases hconn with h | h
    · left; simp [hasConnection, h]
    · by_cases hb : hasConnection pst contactId
      · right; exact ⟨hb, h⟩
      · left; simpa using hb
  rcases hnotconn with hb | ⟨hb, hst⟩
  · simp only [msgSendMessage, hcontact, hkey, hb, Bool.false_eq_true,
      if_false]
    exact ⟨_, rfl, rfl, rfl, trivial, trivial⟩
  · simp only [msgSendMessage, hcontact, hkey, hb, if_true, if_neg hst]
    exact ⟨_, rfl, rfl, rfl, trivial, trivial⟩

/-- Witness for C7 at a concrete offline state: no session exists for
contact "b". -/
theorem sendMessage_offline_saved_witness :
    ∃ m : Message,
      (msgSendMessage refCrypto id (fun _ => "") (some ⟨"u", "alice", [], []⟩)
        [⟨"b", "bob", []⟩] "id1" 5 refAesKey refIv refAesKey refIv
        "hello" "b" none initP2P initMsg).1.storedMessages =
          initMsg.storedMessages ++ [m] ∧
      m.delivered = false ∧ m.encrypted = true ∧
      (msgSendMessage refCrypto id (fun _ => "") (some ⟨"u", "alice", [], []⟩)
        [⟨"b", "bob", []⟩] "id1" 5 refAesKey refIv refAesKey refIv
        "hello" "b" none initP2P initMsg).2.1.sentBytes = initP2P.sentBytes ∧
      (msgSendMessage refCrypto id (fun _ => "") (some ⟨"u", "alice", [], []⟩)
        [⟨"b", "bob", []⟩] "id1" 5 refAesKey refIv refAesKey refIv
        "hello" "b" none initP2P initMsg).2.2 = none :=
  sendMessage_offline_saved refCrypto id (fun _ => "") [⟨"b", "bob", []⟩]
    ⟨"u", "alice", [], []⟩ "id1" 5 refAesKey refIv refAesKey refIv
    "hello" "b" none initP2P initMsg ⟨"b", "bob", []⟩ [] rfl rfl (Or.inl rfl)

/-- C2: an incoming payload that fails to parse, or whose envelope
fails to decrypt (for example after a bit flip in the wrapped key, which
makes RSA unwrapping or the GCM authentication check fail), is dropped:
no Message is persisted, the message list, unread counters and active
conversation are unchanged, and — the pipeline being a total function
whose catch branch only appends to the error log — no exception escapes
the receive callback. -/
theorem incoming_invalid_dropped (C : HybridCrypto)
    (parseJson : String → Option IncomingPayload)
    (sanitize : String → String) (u : User) (newId : String) (nowTs : Nat)
    (raw contactId : String) (mst : MsgState)
    (h : parseJson raw = none ∨
      ∃ p ec, parseJson raw = some p ∧ p.encryptedContent = some ec ∧
        ∀ k, C.importPrivateKey u.privateKey = some k →
          decryptMessageHybrid C ec.encryptedData ec.encryptedKey ec.iv k =
            none) :
    (handleIncomingMessage C parseJson sanitize (some u) newId nowTs raw
        contactId mst).messages = mst.messages ∧
    (handleIncomingMessage C parseJson sanitize (some u) newId nowTs raw
        contactId mst).storedMessages = mst.storedMessages ∧
    (handleIncomingMessage C parseJson sanitize (some u) newId nowTs raw
        contactId mst).unreadCounts = mst.unreadCounts ∧
    (handleIncomingMessage C parseJson sanitize (some u) newId nowTs raw
        contactId mst).currentContactId = mst.currentContactId := by
  have herr : incomingTry C parseJson sanitize u newId nowTs raw
      contactId mst = .error "processing incoming message" := by
    rcases h with hp | ⟨p, ec, hp, hec, hdec⟩
    · simp only [incomingTry, hp]
    · cases hk : C.importPrivateKey u.privateKey with
      | none => simp only [incomingTry, hp, hk]
      | some k => simp only [incomingTry, hp, hk, hec, hdec k hk]
  simp [handleIncomingMessage, herr]

/-- Witness for C2: a payload that fails to parse, at the empty
pipeline state. -/
theorem incoming_invalid_dropped_witness :
    (handleIncomingMessage refCrypto (fun _ => none) id
        (some ⟨"u", "alice", [], []⟩) "id1" 5 "garbage" "b" initMsg).messages =
      initMsg.messages ∧
    (handleIncomingMessage refCrypto (fun _ => none) id
        (some ⟨"u", "alice", [], []⟩) "id1" 5 "garbage" "b"
        initMsg).storedMessages = initMsg.storedMessages ∧
    (handleIncomingMessage refCrypto (fun _ => none) id
        (some ⟨"u", "alice", [], []⟩) "id1" 5 "garbage" "b"
        initMsg).unreadCounts = initMsg.unreadCounts ∧
    (handleIncomingMessage refCrypto (fun _ => none) id
        (some ⟨"u", "alice", [], []⟩) "id1" 5 "garbage" "b"
        initMsg).currentContactId = initMsg.currentContactId :=
  incoming_invalid_dropped refCrypto (fun _ => none) id ⟨"u", "alice", [], []⟩
    "id1" 5 "garbage" "b" initMsg (Or.inl rfl)
